import Mathlib

/-!
Verification of `model/upload_session.go`: the `UploadSession` data model,
its validation (`UploadSession.IsValid`, `UploadType.IsValid`), its
defaulting step (`PreSave`) and its JSON (de)serialization
(`ToJson`, `UploadSessionFromJson`, `UploadSessionsFromJson`).

Embedding conventions:
- Go `int64` fields carry no arithmetic here (only comparisons), so they are
  embedded as `Int`.
- `UploadType` is a Go string type; it is embedded as `String` with the two
  named constants.
- The helpers `IsValidId`, `NewId`, `GetMillis` and the `AppError`
  constructor live elsewhere in the repository (not in the provided source).
  `IsValidId` is passed to `isValid` as an explicit predicate parameter, and
  `NewId`/`GetMillis` results are passed to `preSave` as explicit arguments
  (the spec's injected generator/clock capabilities). `AppError` is embedded
  as the record of the fields `NewAppError` receives here: the detecting
  operation name, the localization id, the detailed error and the HTTP
  status code (the `params` argument is always `nil` in this file and is
  omitted).
- `encoding/json` is embedded at the level of JSON documents: a `Json`
  value tree. `json.Marshal` of the struct follows the struct tags
  (`json:"id"`, ..., `channel_id,omitempty`, `path` tagged `-`), emitting
  keys in struct-field order; `json.Decoder.Decode` into the struct
  follows Go unmarshalling: a JSON object populates the recognized keys
  (last occurrence wins), `null` values and unknown keys are ignored, a
  mismatched value type is an error, a top-level `null` leaves the zero
  value in place with no error, and any other top-level shape is an error.
  A stream that does not parse to a JSON value at all is represented by
  `none : Option Json`.
-/

namespace UploadSessionModel

/-- Go constant `UploadTypeAttachment`. -/
def UploadTypeAttachment : String := "attachment"

/-- Go constant `UploadTypeImport`. -/
def UploadTypeImport : String := "import"

/-- The `UploadSession` struct. `Type` is a reserved word in Lean, so that
field is named `Type'`. -/
structure UploadSession where
  Id : String
  Type' : String
  CreateAt : Int
  UserId : String
  ChannelId : String
  Filename : String
  Path : String
  FileSize : Int
  FileOffset : Int
deriving DecidableEq, Repr

/-- The Go zero value of `UploadSession`, the starting point of
`json.Decoder.Decode` into a fresh variable. -/
def zeroSession : UploadSession :=
  { Id := "", Type' := "", CreateAt := 0, UserId := "", ChannelId := ""
    Filename := "", Path := "", FileSize := 0, FileOffset := 0 }

/-- The `AppError` fields populated by the `NewAppError` calls in this file:
operation name (`Where`, renamed since `where` is reserved), localization
id, detailed error, HTTP status code. -/
structure AppError where
  appWhere : String
  id : String
  detailedError : String
  statusCode : Nat
deriving DecidableEq, Repr

/-- `NewAppError` restricted to the arguments used in this file
(`params` is always `nil` here). -/
def newAppError (w id detail : String) (status : Nat) : AppError :=
  { appWhere := w, id := id, detailedError := detail, statusCode := status }

/-- `UploadType.IsValid`: `nil` (here `none`) for the two known variants,
otherwise the `fmt.Errorf("invalid UploadType %s", t)` message. -/
def uploadTypeIsValid (t : String) : Option String :=
  if t = UploadTypeAttachment then none
  else if t = UploadTypeImport then none
  else some ("invalid UploadType " ++ t)

/-- `UploadSession.IsValid`. `validId` is the repository's `IsValidId`
predicate (defined outside the provided source), passed explicitly.
Returns `none` for a valid session, `some appError` at the first failing
check otherwise, exactly in the source's check order. -/
def UploadSession.isValid (validId : String → Bool) (us : UploadSession) :
    Option AppError :=
  if ¬ validId us.Id then
    some (newAppError "UploadSession.IsValid"
      "model.upload_session.is_valid.id.app_error" "" 400)
  else
    match uploadTypeIsValid us.Type' with
    | some errMsg =>
      some (newAppError "UploadSession.IsValid"
        "model.upload_session.is_valid.type.app_error" errMsg 400)
    | none =>
      if ¬ validId us.UserId then
        some (newAppError "UploadSession.IsValid"
          "model.upload_session.is_valid.user_id.app_error"
          ("id=" ++ us.Id) 400)
      else if us.Type' = UploadTypeAttachment ∧ ¬ validId us.ChannelId then
        some (newAppError "UploadSession.IsValid"
          "model.upload_session.is_valid.channel_id.app_error"
          ("id=" ++ us.Id) 400)
      else if us.CreateAt = 0 then
        some (newAppError "UploadSession.IsValid"
          "model.upload_session.is_valid.create_at.app_error"
          ("id=" ++ us.Id) 400)
      else if us.Filename = "" then
        some (newAppError "UploadSession.IsValid"
          "model.upload_session.is_valid.filename.app_error"
          ("id=" ++ us.Id) 400)
      else if us.FileSize ≤ 0 then
        some (newAppError "UploadSession.IsValid"
          "model.upload_session.is_valid.file_size.app_error"
          ("id=" ++ us.Id) 400)
      else if us.FileOffset < 0 ∨ us.FileOffset > us.FileSize then
        some (newAppError "UploadSession.IsValid"
          "model.upload_session.is_valid.file_offset.app_error"
          ("id=" ++ us.Id) 400)
      else if us.Path = "" then
        some (newAppError "UploadSession.IsValid"
          "model.upload_session.is_valid.path.app_error"
          ("id=" ++ us.Id) 400)
      else none

/-- `UploadSession.PreSave`. `newId` is the value `NewId()` would return and
`millis` the value `GetMillis()` would return; both helpers live outside the
provided source, so they are injected (the spec's generator and clock
capabilities). -/
def UploadSession.preSave (newId : String) (millis : Int)
    (us : UploadSession) : UploadSession :=
  let us1 := if us.Id = "" then { us with Id := newId } else us
  if us1.CreateAt = 0 then { us1 with CreateAt := millis } else us1

/-- A JSON document, the interchange value produced/consumed by
`encoding/json`. Numbers are restricted to integers, the only numeric
values this file marshals; objects are key/value lists in emission order. -/
inductive Json where
  | null : Json
  | bool (b : Bool) : Json
  | num (n : Int) : Json
  | str (s : String) : Json
  | arr (elems : List Json) : Json
  | obj (fields : List (String × Json)) : Json

/-- The keys of a JSON object (empty for non-objects). -/
def Json.keys : Json → List String
  | .obj fields => fields.map Prod.fst
  | _ => []

/-- `UploadSession.ToJson` / `json.Marshal` of the struct, as the JSON
document it prints: keys in struct-field order per the struct tags;
`channel_id` is tagged `omitempty` so it is dropped when empty, and `Path`
is tagged `-` so it is never emitted. -/
def UploadSession.toJson (us : UploadSession) : Json :=
  Json.obj
    ([("id", Json.str us.Id), ("type", Json.str us.Type'),
      ("create_at", Json.num us.CreateAt), ("user_id", Json.str us.UserId)]
     ++ (if us.ChannelId = "" then []
         else [("channel_id", Json.str us.ChannelId)])
     ++ [("filename", Json.str us.Filename),
         ("file_size", Json.num us.FileSize),
         ("file_offset", Json.num us.FileOffset)])

/-- `UploadSessionsToJson` / `json.Marshal` of a slice of sessions: the
JSON array of the element documents. -/
def uploadSessionsToJson (uss : List UploadSession) : Json :=
  Json.arr (uss.map UploadSession.toJson)

/-- One step of Go unmarshalling of an object entry into an
`UploadSession`: a recognized key with a value of the matching type sets
the field, a `null` value is a no-op, a recognized key with a mismatched
value type is an error (`none`), and an unknown key — including `path`,
whose tag `-` removes it from unmarshalling — is ignored. -/
def setField (us : UploadSession) (k : String) (v : Json) :
    Option UploadSession :=
  if k = "id" then
    match v with
    | .str s => some { us with Id := s }
    | .null => some us
    | _ => none
  else if k = "type" then
    match v with
    | .str s => some { us with Type' := s }
    | .null => some us
    | _ => none
  else if k = "create_at" then
    match v with
    | .num n => some { us with CreateAt := n }
    | .null => some us
    | _ => none
  else if k = "user_id" then
    match v with
    | .str s => some { us with UserId := s }
    | .null => some us
    | _ => none
  else if k = "channel_id" then
    match v with
    | .str s => some { us with ChannelId := s }
    | .null => some us
    | _ => none
  else if k = "filename" then
    match v with
    | .str s => some { us with Filename := s }
    | .null => some us
    | _ => none
  else if k = "file_size" then
    match v with
    | .num n => some { us with FileSize := n }
    | .null => some us
    | _ => none
  else if k = "file_offset" then
    match v with
    | .num n => some { us with FileOffset := n }
    | .null => some us
    | _ => none
  else some us

/-- Go unmarshalling of an object's entries, in order (a later duplicate
key overwrites an earlier one). -/
def decodeFields : List (String × Json) → UploadSession → Option UploadSession
  | [], us => some us
  | (k, v) :: rest, us =>
    match setField us k v with
    | none => none
    | some us1 => decodeFields rest us1

/-- Go's `Decode` of a single JSON document into an `UploadSession`
variable: an object populates the zero value, a top-level `null` is a
no-op that leaves the zero value (no error), anything else is an error. -/
def decodeUploadSession : Json → Option UploadSession
  | .null => some zeroSession
  | .obj fields => decodeFields fields zeroSession
  | _ => none

/-- `UploadSessionFromJson`: `none` when the stream does not parse
(`none : Option Json`) or does not decode; otherwise the decoded session. -/
def uploadSessionFromJson (data : Option Json) : Option UploadSession :=
  match data with
  | none => none
  | some j => decodeUploadSession j

/-- Go's `Decode` of a JSON document into a `*UploadSession` slice element:
`null` yields a nil pointer (`none`), otherwise the struct decoding must
succeed. -/
def decodeSessionPtr : Json → Option (Option UploadSession)
  | .null => some none
  | j => (decodeUploadSession j).map some

/-- Go's `Decode` of a single JSON document into a `[]*UploadSession`
variable: an array decodes elementwise; a top-level `null` leaves the slice
`nil`, which the caller returns as the nil result; anything else is an
error. -/
def decodeUploadSessions : Json → Option (List (Option UploadSession))
  | .arr elems => elems.mapM decodeSessionPtr
  | _ => none

/-- `UploadSessionsFromJson`: `none` when the stream does not parse or does
not decode to a slice; otherwise the decoded list (elements are `none` for
JSON `null` entries, mirroring nil pointers). -/
def uploadSessionsFromJson (data : Option Json) :
    Option (List (Option UploadSession)) :=
  match data with
  | none => none
  | some j => decodeUploadSessions j

/-- `uploadTypeIsValid` succeeds exactly on the two variants. -/
theorem uploadTypeIsValid_eq_none_iff (t : String) :
    uploadTypeIsValid t = none ↔
      (t = UploadTypeAttachment ∨ t = UploadTypeImport) := by
  unfold uploadTypeIsValid
  split_ifs with h1 h2 <;> simp_all

/-- C1: `UploadSession.IsValid` returns success (`none`) iff all nine §3
invariants hold — well-formed `Id` and `UserId`, `Type` one of the two
variants, well-formed `ChannelId` when `Type` is attachment, nonzero
`CreateAt`, non-empty `Filename` and `Path`, positive `FileSize`, and
`FileOffset` within `[0, FileSize]`. In particular a session with
`Type = "import"` and empty `ChannelId` whose other invariants hold is
reported valid. -/
theorem isValid_eq_none_iff_invariants (validId : String → Bool)
    (us : UploadSession) :
    us.isValid validId = none ↔
      (validId us.Id = true ∧
       (us.Type' = UploadTypeAttachment ∨ us.Type' = UploadTypeImport) ∧
       validId us.UserId = true ∧
       (us.Type' = UploadTypeAttachment → validId us.ChannelId = true) ∧
       us.CreateAt ≠ 0 ∧
       us.Filename ≠ "" ∧
       0 < us.FileSize ∧
       (0 ≤ us.FileOffset ∧ us.FileOffset ≤ us.FileSize) ∧
       us.Path ≠ "") := by
  rcases hty : uploadTypeIsValid us.Type' with _ | e
  · have hvar : us.Type' = UploadTypeAttachment ∨ us.Type' = UploadTypeImport :=
      (uploadTypeIsValid_eq_none_iff us.Type').mp hty
    simp only [UploadSession.isValid, hty]
    split_ifs with h1 h2 h3 h4 h5 h6 h7 h8 <;>
      simp_all <;> omega
  · have hvar : ¬ (us.Type' = UploadTypeAttachment ∨ us.Type' = UploadTypeImport) := by
      intro hv
      rw [(uploadTypeIsValid_eq_none_iff us.Type').mpr hv] at hty
      exact Option.noConfusion hty
    simp only [UploadSession.isValid, hty]
    split_ifs <;> simp_all

/-- C1 witness: a concrete import-type session with empty `ChannelId` and
all other invariants satisfied is reported valid. -/
theorem isValid_eq_none_iff_invariants_witness :
    UploadSession.isValid (fun _ => true)
      { Id := "sessionid", Type' := "import", CreateAt := 5,
        UserId := "userid", ChannelId := "", Filename := "a.png",
        Path := "/tmp/a", FileSize := 100, FileOffset := 40 } = none :=
  (isValid_eq_none_iff_invariants (fun _ => true) _).mpr (by decide)

/-- C8: `UploadType.IsValid` is a pure check of the type string alone: it
succeeds exactly when the value is `"attachment"` or `"import"`, and for
every other value it fails with a message naming the offending value
(the value is a suffix of the message). -/
theorem uploadTypeIsValid_spec (t : String) :
    (uploadTypeIsValid t = none ↔
      (t = UploadTypeAttachment ∨ t = UploadTypeImport)) ∧
    (t ≠ UploadTypeAttachment → t ≠ UploadTypeImport →
      uploadTypeIsValid t = some ("invalid UploadType " ++ t) ∧
      t.data <:+ ("invalid UploadType " ++ t).data) := by
  refine ⟨uploadTypeIsValid_eq_none_iff t, fun h1 h2 => ⟨?_, ?_⟩⟩
  · unfold uploadTypeIsValid
    simp [h1, h2]
  · exact ⟨"invalid UploadType ".data, (String.data_append _ _).symm⟩

/-- C8 witness: the concrete value `"bogus"` is rejected with a message
that names it. -/
theorem uploadTypeIsValid_spec_witness :
    uploadTypeIsValid "bogus" = some ("invalid UploadType " ++ "bogus") ∧
    "bogus".data <:+ ("invalid UploadType " ++ "bogus").data :=
  (uploadTypeIsValid_spec "bogus").2 (by decide) (by decide)

/-- C3: when every invariant checked before the offset check holds and
`FileOffset` is out of range — on either side — `IsValid` reports exactly
the `file_offset` error kind, with the standard context. -/
theorem isValid_fileOffset_out_of_range (validId : String → Bool)
    (us : UploadSession)
    (hid : validId us.Id = true)
    (hty : us.Type' = UploadTypeAttachment ∨ us.Type' = UploadTypeImport)
    (huid : validId us.UserId = true)
    (hch : us.Type' = UploadTypeAttachment → validId us.ChannelId = true)
    (hca : us.CreateAt ≠ 0)
    (hfn : us.Filename ≠ "")
    (hfs : 0 < us.FileSize)
    (hpath : us.Path ≠ "")
    (hoff : us.FileOffset < 0 ∨ us.FileOffset > us.FileSize) :
    us.isValid validId =
      some (newAppError "UploadSession.IsValid"
        "model.upload_session.is_valid.file_offset.app_error"
        ("id=" ++ us.Id) 400) := by
  have htyv : uploadTypeIsValid us.Type' = none :=
    (uploadTypeIsValid_eq_none_iff us.Type').mpr hty
  simp only [UploadSession.isValid, htyv]
  split_ifs with h1 h2 h3 h4 h5 h6 h7 <;> simp_all <;> omega

/-- C3 witness: a concrete session whose offset exceeds its size fails with
the `file_offset` kind. -/
theorem isValid_fileOffset_out_of_range_witness :
    UploadSession.isValid (fun _ => true)
      { Id := "sessionid", Type' := "import", CreateAt := 5,
        UserId := "userid", ChannelId := "", Filename := "a.png",
        Path := "/tmp/a", FileSize := 100, FileOffset := 101 } =
      some (newAppError "UploadSession.IsValid"
        "model.upload_session.is_valid.file_offset.app_error"
        ("id=" ++ "sessionid") 400) :=
  isValid_fileOffset_out_of_range (fun _ => true) _ (by decide)
    (by decide) (by decide) (by decide) (by decide) (by decide)
    (by decide) (by decide) (by decide)

/-- The validation checks in the order the source performs them, each
paired with its localization code. -/
def orderedChecks (validId : String → Bool) (us : UploadSession) :
    List (String × Bool) :=
  [("model.upload_session.is_valid.id.app_error", ! validId us.Id),
   ("model.upload_session.is_valid.type.app_error",
     (uploadTypeIsValid us.Type').isSome),
   ("model.upload_session.is_valid.user_id.app_error", ! validId us.UserId),
   ("model.upload_session.is_valid.channel_id.app_error",
     decide (us.Type' = UploadTypeAttachment ∧ ¬ validId us.ChannelId = true)),
   ("model.upload_session.is_valid.create_at.app_error",
     decide (us.CreateAt = 0)),
   ("model.upload_session.is_valid.filename.app_error",
     decide (us.Filename = "")),
   ("model.upload_session.is_valid.file_size.app_error",
     decide (us.FileSize ≤ 0)),
   ("model.upload_session.is_valid.file_offset.app_error",
     decide (us.FileOffset < 0 ∨ us.FileOffset > us.FileSize)),
   ("model.upload_session.is_valid.path.app_error",
     decide (us.Path = ""))]

/-- The localization code of the first failing check in source order. -/
def firstViolationCode (validId : String → Bool) (us : UploadSession) :
    Option String :=
  ((orderedChecks validId us).find? (fun c => c.2)).map (fun c => c.1)

/-- Modelled from the spec: the same checks reordered to the §3 field-table
order (Id, Type, CreateAt, UserId, ChannelId, Filename, Path, FileSize,
FileOffset), the order claim C2 asserts `IsValid` follows. -/
def specTableChecks (validId : String → Bool) (us : UploadSession) :
    List (String × Bool) :=
  [("model.upload_session.is_valid.id.app_error", ! validId us.Id),
   ("model.upload_session.is_valid.type.app_error",
     (uploadTypeIsValid us.Type').isSome),
   ("model.upload_session.is_valid.create_at.app_error",
     decide (us.CreateAt = 0)),
   ("model.upload_session.is_valid.user_id.app_error", ! validId us.UserId),
   ("model.upload_session.is_valid.channel_id.app_error",
     decide (us.Type' = UploadTypeAttachment ∧ ¬ validId us.ChannelId = true)),
   ("model.upload_session.is_valid.filename.app_error",
     decide (us.Filename = "")),
   ("model.upload_session.is_valid.path.app_error",
     decide (us.Path = "")),
   ("model.upload_session.is_valid.file_size.app_error",
     decide (us.FileSize ≤ 0)),
   ("model.upload_session.is_valid.file_offset.app_error",
     decide (us.FileOffset < 0 ∨ us.FileOffset > us.FileSize))]

/-- Modelled from the spec: the first violated invariant in §3 field-table
order. -/
def specFirstViolationCode (validId : String → Bool) (us : UploadSession) :
    Option String :=
  ((specTableChecks validId us).find? (fun c => c.2)).map (fun c => c.1)

/-- Helper: a decidable `≤` on `Int` evaluates to `false` when refuted. -/
theorem decide_int_le_eq_false {a b : Int} (h : b < a) :
    decide (a ≤ b) = false := decide_eq_false (by omega)

/-- Helper: a decidable `<` on `Int` evaluates to `false` when refuted. -/
theorem decide_int_lt_eq_false {a b : Int} (h : b ≤ a) :
    decide (a < b) = false := decide_eq_false (by omega)

/-- C2 counterexample: a session with `CreateAt = 0` and a malformed
`UserId` (all earlier checks passing). The §3 table order lists `CreateAt`
before `UserId`, so the claim predicts the `create_at` kind; the code
checks `UserId` first and reports the `user_id` kind. -/
theorem isValid_order_counterexample :
    (UploadSession.isValid (fun s => s == "okid")
        { Id := "okid", Type' := "import", CreateAt := 0, UserId := "bad",
          ChannelId := "", Filename := "f", Path := "p", FileSize := 1,
          FileOffset := 0 }).map AppError.id =
      some "model.upload_session.is_valid.user_id.app_error" ∧
    specFirstViolationCode (fun s => s == "okid")
        { Id := "okid", Type' := "import", CreateAt := 0, UserId := "bad",
          ChannelId := "", Filename := "f", Path := "p", FileSize := 1,
          FileOffset := 0 } =
      some "model.upload_session.is_valid.create_at.app_error" ∧
    "model.upload_session.is_valid.user_id.app_error" ≠
      "model.upload_session.is_valid.create_at.app_error" := by
  refine ⟨by decide, by decide, by decide⟩

/-- C2 (amended): `IsValid` short-circuits at the first violation in the
source's fixed order — Id, Type, UserId, ChannelId, CreateAt, Filename,
FileSize, FileOffset, Path — and a `channel_id` failure is only ever
reported when `Type` has already been confirmed valid (it equals the
attachment variant). -/
theorem isValid_reports_first_violation (validId : String → Bool)
    (us : UploadSession) :
    (us.isValid validId).map AppError.id = firstViolationCode validId us ∧
    (∀ e, us.isValid validId = some e →
      e.id = "model.upload_session.is_valid.channel_id.app_error" →
      us.Type' = UploadTypeAttachment) := by
  constructor
  · by_cases hA : us.Type' = UploadTypeAttachment <;>
      rcases hty : uploadTypeIsValid us.Type' with _ | errMsg <;>
      simp only [UploadSession.isValid, firstViolationCode, orderedChecks,
        hty] <;>
      split_ifs with h1 h2 h3 h4 h5 h6 h7 h8 <;>
      simp_all [List.find?, newAppError, decide_int_le_eq_false,
        decide_int_lt_eq_false]
  · intro e he hcode
    rcases hty : uploadTypeIsValid us.Type' with _ | errMsg <;>
      simp only [UploadSession.isValid, hty] at he <;>
      split_ifs at he with h1 h2 h3 h4 h5 h6 h7 h8 <;>
      first
        | exact h3.1
        | (rcases Option.some.inj he with rfl
           simp only [newAppError] at hcode
           exact absurd hcode (by decide))
        | cases he

/-- C4: `PreSave` assigns the generated id to `Id` only when `Id` is empty
and the clock value to `CreateAt` only when `CreateAt` is zero; it never
overwrites a non-empty `Id` or nonzero `CreateAt`; starting from empty
`Id` and zero `CreateAt` it leaves both populated; and a second `PreSave`
(with any later generator/clock values) is a no-op. The hypotheses state
what the external generator and clock supply: a non-empty identifier and a
nonzero millisecond timestamp. -/
theorem preSave_spec (n n' : String) (m m' : Int) (us : UploadSession)
    (hn : n ≠ "") (hm : m ≠ 0) :
    (us.Id ≠ "" → (us.preSave n m).Id = us.Id) ∧
    (us.CreateAt ≠ 0 → (us.preSave n m).CreateAt = us.CreateAt) ∧
    (us.Id = "" → (us.preSave n m).Id = n) ∧
    (us.CreateAt = 0 → (us.preSave n m).CreateAt = m) ∧
    (us.Id = "" → us.CreateAt = 0 →
      (us.preSave n m).Id ≠ "" ∧ (us.preSave n m).CreateAt ≠ 0) ∧
    (us.preSave n m).preSave n' m' = us.preSave n m := by
  by_cases h1 : us.Id = "" <;> by_cases h2 : us.CreateAt = 0 <;>
    simp_all [UploadSession.preSave]

/-- C4 witness: starting from the zero session, `PreSave` with generator
output `"newid"` and clock value `7` populates both fields. -/
theorem preSave_spec_witness :
    (zeroSession.preSave "newid" 7).Id ≠ "" ∧
    (zeroSession.preSave "newid" 7).CreateAt ≠ 0 :=
  (preSave_spec "newid" "x" 7 3 zeroSession (by decide)
    (by decide)).2.2.2.2.1 rfl rfl

/-- C10: `PreSave` modifies only `Id` and `CreateAt`: every other field of
the result is identical to the input's, whatever the generator and clock
supply. -/
theorem preSave_frame (n : String) (m : Int) (us : UploadSession) :
    (us.preSave n m).Type' = us.Type' ∧
    (us.preSave n m).UserId = us.UserId ∧
    (us.preSave n m).ChannelId = us.ChannelId ∧
    (us.preSave n m).Filename = us.Filename ∧
    (us.preSave n m).Path = us.Path ∧
    (us.preSave n m).FileSize = us.FileSize ∧
    (us.preSave n m).FileOffset = us.FileOffset := by
  by_cases h1 : us.Id = "" <;> by_cases h2 : us.CreateAt = 0 <;>
    simp_all [UploadSession.preSave]

/-- C5: serialization is independent of `Path` — two sessions equal in
every field except `Path` produce the same document — and the key `path`
is never among the emitted keys. -/
theorem toJson_independent_of_path (s1 s2 : UploadSession)
    (hId : s1.Id = s2.Id) (hTy : s1.Type' = s2.Type')
    (hCA : s1.CreateAt = s2.CreateAt) (hU : s1.UserId = s2.UserId)
    (hCh : s1.ChannelId = s2.ChannelId) (hF : s1.Filename = s2.Filename)
    (hFS : s1.FileSize = s2.FileSize) (hFO : s1.FileOffset = s2.FileOffset) :
    s1.toJson = s2.toJson ∧ "path" ∉ s1.toJson.keys := by
  constructor
  · unfold UploadSession.toJson
    rw [hId, hTy, hCA, hU, hCh, hF, hFS, hFO]
  · unfold UploadSession.toJson Json.keys
    by_cases hch : s1.ChannelId = "" <;> simp [hch] <;> decide

/-- C5 witness: two concrete sessions differing only in `Path` serialize
identically, with no `path` key. -/
theorem toJson_independent_of_path_witness :
    UploadSession.toJson
        { Id := "i", Type' := "import", CreateAt := 1, UserId := "u",
          ChannelId := "", Filename := "f", Path := "p1", FileSize := 2,
          FileOffset := 1 } =
      UploadSession.toJson
        { Id := "i", Type' := "import", CreateAt := 1, UserId := "u",
          ChannelId := "", Filename := "f", Path := "p2", FileSize := 2,
          FileOffset := 1 } ∧
    "path" ∉ (UploadSession.toJson
        { Id := "i", Type' := "import", CreateAt := 1, UserId := "u",
          ChannelId := "", Filename := "f", Path := "p1", FileSize := 2,
          FileOffset := 1 }).keys :=
  toJson_independent_of_path _ _ rfl rfl rfl rfl rfl rfl rfl rfl

/-- C6: round trip — decoding the serialization of a valid session yields
the same session with `Path` emptied, and the emitted keys are exactly
`id`, `type`, `create_at`, `user_id`, `channel_id` (only when non-empty),
`filename`, `file_size`, `file_offset`, in that order. -/
theorem toJson_roundTrip (validId : String → Bool) (us : UploadSession)
    (h : us.isValid validId = none) :
    uploadSessionFromJson (some us.toJson) = some { us with Path := "" } ∧
    us.toJson.keys =
      ["id", "type", "create_at", "user_id"] ++
        (if us.ChannelId = "" then [] else ["channel_id"]) ++
      ["filename", "file_size", "file_offset"] := by
  clear h
  rcases us with ⟨i, t, c, u, ch, f, p, fs, fo⟩
  by_cases hch : ch = ""
  · subst hch
    exact ⟨rfl, rfl⟩
  · refine ⟨?_, ?_⟩ <;> (simp only [UploadSession.toJson, if_neg hch]; rfl)

/-- C6 witness: a concrete valid attachment session round-trips with
`Path` emptied and the expected keys. -/
theorem toJson_roundTrip_witness :
    uploadSessionFromJson (some (UploadSession.toJson
        { Id := "i", Type' := "attachment", CreateAt := 1, UserId := "u",
          ChannelId := "c", Filename := "f", Path := "p", FileSize := 2,
          FileOffset := 1 })) =
      some { Id := "i", Type' := "attachment", CreateAt := 1, UserId := "u",
             ChannelId := "c", Filename := "f", Path := "", FileSize := 2,
             FileOffset := 1 } ∧
    (UploadSession.toJson
        { Id := "i", Type' := "attachment", CreateAt := 1, UserId := "u",
          ChannelId := "c", Filename := "f", Path := "p", FileSize := 2,
          FileOffset := 1 }).keys =
      ["id", "type", "create_at", "user_id"] ++
        (if ("c" : String) = "" then [] else ["channel_id"]) ++
      ["filename", "file_size", "file_offset"] :=
  toJson_roundTrip (fun _ => true)
    { Id := "i", Type' := "attachment", CreateAt := 1, UserId := "u",
      ChannelId := "c", Filename := "f", Path := "p", FileSize := 2,
      FileOffset := 1 } (by decide)

/-- C7 counterexample: the stream holding the single JSON literal `null`
is not a record, yet the single-session decoder does not return the `nil`
sentinel — Go's decoder treats `null` as a no-op and the function returns
a (zero-valued) session. -/
theorem fromJson_null_counterexample :
    uploadSessionFromJson (some Json.null) = some zeroSession ∧
    uploadSessionFromJson (some Json.null) ≠ none :=
  ⟨rfl, by decide⟩

/-- C7 (amended): an unparseable stream yields `none` from both decoders;
a top-level value that is neither an object nor `null` yields `none` from
the single-session decoder (for `null` itself Go returns a zero-valued
session); a top-level value that is not an array yields `none` from the
list decoder (including `null`, where Go returns the nil slice); and
decoding never checks the §3 invariants — the empty object decodes
successfully to the zero session, which fails validation for every id
predicate. -/
theorem fromJson_malformed (j : Json) :
    uploadSessionFromJson none = none ∧
    uploadSessionsFromJson none = none ∧
    ((∀ fields, j ≠ Json.obj fields) → j ≠ Json.null →
      uploadSessionFromJson (some j) = none) ∧
    ((∀ elems, j ≠ Json.arr elems) →
      uploadSessionsFromJson (some j) = none) ∧
    uploadSessionFromJson (some (Json.obj [])) = some zeroSession ∧
    (∀ validId : String → Bool, zeroSession.isValid validId ≠ none) := by
  refine ⟨rfl, rfl, ?_, ?_, rfl, ?_⟩
  · intro hobj hnull
    cases j <;>
      first
        | rfl
        | exact absurd rfl hnull
        | exact absurd rfl (hobj _)
  · intro harr
    cases j <;> first | rfl | exact absurd rfl (harr _)
  · intro validId
    have ht : uploadTypeIsValid "" = some ("invalid UploadType " ++ "") := rfl
    by_cases hv : validId "" = true <;>
      simp [UploadSession.isValid, zeroSession, hv, ht]

/-- C7 witness: a stream holding a bare boolean decodes to `none` under
both decoders. -/
theorem fromJson_malformed_witness :
    uploadSessionFromJson (some (Json.bool true)) = none ∧
    uploadSessionsFromJson (some (Json.bool true)) = none :=
  ⟨(fromJson_malformed (Json.bool true)).2.2.1
      (fun _ h => Json.noConfusion h) (fun h => Json.noConfusion h),
   (fromJson_malformed (Json.bool true)).2.2.2.1
      (fun _ h => Json.noConfusion h)⟩

/-- C2 witness: on a concrete attachment session with a malformed
`ChannelId`, the reported kind is the first failing check in source order,
and the `channel_id` attribution indeed implies the type was the valid
attachment variant. -/
theorem isValid_reports_first_violation_witness :
    (UploadSession.isValid (fun s => s == "okid")
        { Id := "okid", Type' := "attachment", CreateAt := 1,
          UserId := "okid", ChannelId := "bad", Filename := "f",
          Path := "p", FileSize := 1, FileOffset := 0 }).map AppError.id =
      firstViolationCode (fun s => s == "okid")
        { Id := "okid", Type' := "attachment", CreateAt := 1,
          UserId := "okid", ChannelId := "bad", Filename := "f",
          Path := "p", FileSize := 1, FileOffset := 0 } ∧
    ({ Id := "okid", Type' := "attachment", CreateAt := 1,
       UserId := "okid", ChannelId := "bad", Filename := "f",
       Path := "p", FileSize := 1, FileOffset := 0 } :
        UploadSession).Type' = UploadTypeAttachment :=
  ⟨(isValid_reports_first_violation (fun s => s == "okid")
      { Id := "okid", Type' := "attachment", CreateAt := 1,
        UserId := "okid", ChannelId := "bad", Filename := "f",
        Path := "p", FileSize := 1, FileOffset := 0 }).1,
   (isValid_reports_first_violation (fun s => s == "okid")
      { Id := "okid", Type' := "attachment", CreateAt := 1,
        UserId := "okid", ChannelId := "bad", Filename := "f",
        Path := "p", FileSize := 1, FileOffset := 0 }).2
     (newAppError "UploadSession.IsValid"
       "model.upload_session.is_valid.channel_id.app_error"
       ("id=" ++ "okid") 400) (by decide) (by decide)⟩

/-- Helper: the error message `UploadType.IsValid` returns always names
the offending value. -/
theorem uploadTypeIsValid_eq_some (t e : String)
    (h : uploadTypeIsValid t = some e) : e = "invalid UploadType " ++ t := by
  unfold uploadTypeIsValid at h
  split_ifs at h <;> first | exact (Option.some.inj h).symm | cases h

/-- C9 counterexample: a session with an available (well-formed) `Id` but a
malformed `Type` fails with the type kind, whose contextual detail names
the bad type value and does not contain the session's `Id`. -/
theorem isValid_detail_counterexample :
    UploadSession.isValid (fun s => s == "okid")
        { Id := "okid", Type' := "bogus", CreateAt := 1, UserId := "okid",
          ChannelId := "", Filename := "f", Path := "p", FileSize := 1,
          FileOffset := 0 } =
      some (newAppError "UploadSession.IsValid"
        "model.upload_session.is_valid.type.app_error"
        "invalid UploadType bogus" 400) ∧
    ¬ "okid".data <:+: "invalid UploadType bogus".data :=
  ⟨by decide, by decide⟩

/-- C9 (amended): every failure of `IsValid` carries the detecting
operation name `UploadSession.IsValid`, bad-request severity 400, and
exactly one of the nine per-invariant localization codes; every failure
from a check after the `Type` check has contextual detail `id=<session
id>`, containing the session's `Id`; the `Id`-check failure carries an
empty detail and the `Type`-check failure carries the type error message
instead of the `Id`. -/
theorem isValid_failure_shape (validId : String → Bool)
    (us : UploadSession) (e : AppError)
    (he : us.isValid validId = some e) :
    e.appWhere = "UploadSession.IsValid" ∧
    e.statusCode = 400 ∧
    e.id ∈ ["model.upload_session.is_valid.id.app_error",
            "model.upload_session.is_valid.type.app_error",
            "model.upload_session.is_valid.user_id.app_error",
            "model.upload_session.is_valid.channel_id.app_error",
            "model.upload_session.is_valid.create_at.app_error",
            "model.upload_session.is_valid.filename.app_error",
            "model.upload_session.is_valid.file_size.app_error",
            "model.upload_session.is_valid.file_offset.app_error",
            "model.upload_session.is_valid.path.app_error"] ∧
    (e.id ≠ "model.upload_session.is_valid.id.app_error" →
     e.id ≠ "model.upload_session.is_valid.type.app_error" →
     e.detailedError = "id=" ++ us.Id ∧
       us.Id.data <:+: e.detailedError.data) ∧
    (e.id = "model.upload_session.is_valid.id.app_error" →
      e.detailedError = "") ∧
    (e.id = "model.upload_session.is_valid.type.app_error" →
      e.detailedError = "invalid UploadType " ++ us.Type') := by
  rcases hty : uploadTypeIsValid us.Type' with _ | errMsg <;>
    simp only [UploadSession.isValid, hty] at he <;>
    split_ifs at he with h1 h2 h3 h4 h5 h6 h7 h8 <;>
    first
      | (rcases Option.some.inj he with rfl
         refine ⟨rfl, rfl, by simp [newAppError], ?_, ?_, ?_⟩
         · first
             | (intro hx _; exact absurd rfl hx)
             | (intro _ hx; exact absurd rfl hx)
             | (intro _ _
                exact ⟨rfl, "id=".data, [],
                  by simp [String.data_append, newAppError]⟩)
         · first
             | (intro _; rfl)
             | (intro hx
                simp only [newAppError] at hx
                exact absurd hx (by decide))
         · first
             | (intro _; exact uploadTypeIsValid_eq_some _ _ hty)
             | (intro hx
                simp only [newAppError] at hx
                exact absurd hx (by decide)))
      | cases he

/-- C9 witness: the `user_id` failure of a concrete session carries the
detail `id=okid`, which contains the session's `Id`. -/
theorem isValid_failure_shape_witness :
    (newAppError "UploadSession.IsValid"
        "model.upload_session.is_valid.user_id.app_error"
        ("id=" ++ "okid") 400).detailedError = "id=" ++ "okid" ∧
    "okid".data <:+: (newAppError "UploadSession.IsValid"
        "model.upload_session.is_valid.user_id.app_error"
        ("id=" ++ "okid") 400).detailedError.data :=
  (isValid_failure_shape (fun s => s == "okid")
      { Id := "okid", Type' := "import", CreateAt := 1, UserId := "bad",
        ChannelId := "", Filename := "f", Path := "p", FileSize := 1,
        FileOffset := 0 } _ (by decide)).2.2.2.1 (by decide) (by decide)

end UploadSessionModel
